import Mathlib

/-!
Verification development for the dbapi_opentracing package (tracing.py and
psycopg2_tracing.py): a shallow embedding of the traced connection and cursor
wrappers, their statement normalization, span tagging, error propagation, and
the psycopg subclass caches, together with theorems about the spec claims.

Modelling conventions:
- A span is represented by the ordered list of tracer events a traced call
  emits: startSpan (tracer.start_active_span), setTag (span.set_tag), and
  finishSpan (the scope closing when the with-block exits).
- The underlying driver call is an opaque value of type Except PyErr A: ok v
  when it returns v, error e when it raises e.
- Python class objects involved in the psycopg factory caches are modelled by
  natural-number identities; fresh class definitions take fresh identities.
-/

/-- Values set as span tags: strings, integers and booleans. -/
inductive TagVal where
  | str (s : String)
  | int (i : Int)
  | bool (b : Bool)
deriving DecidableEq

/-- Model of a raised Python exception, keeping the observable pieces the
tracing code reads: the class display string (str of e.__class__), the class
name (e.__class__.__name__), the message (str of e) and the formatted
traceback. -/
structure PyErr where
  cls : String
  kind : String
  msg : String
  stack : String
deriving DecidableEq

/-- Tracer interactions a traced call performs, in order. -/
inductive TraceEvent where
  | startSpan (name : String)
  | setTag (key : String) (value : TagVal)
  | finishSpan
deriving DecidableEq

/-- The space character, written via its code point. -/
def spaceChar : Char := Char.ofNat 32

/-- The Unicode replacement character used by lossy decoding. -/
def replChar : Char := Char.ofNat 0xFFFD

/-- Whether a byte is a UTF-8 continuation byte (0x80 to 0xBF). -/
def isContByte (b : Nat) : Bool := 0x80 ≤ b && b ≤ 0xBF

/-- Fuelled worker for utf8DecodeReplace. Each step consumes at least one
byte, so fuel equal to the list length suffices. Invalid sequences are
replaced following the maximal-subpart convention CPython uses for the
replace error handler: a rejected lead byte consumes itself, and a valid
prefix of a multibyte sequence that is cut short consumes the bytes read so
far, producing one replacement character. -/
def utf8DecodeReplaceAux : Nat → List Nat → List Char
  | 0, _ => []
  | _, [] => []
  | fuel + 1, b :: rest =>
    if b < 0x80 then
      Char.ofNat b :: utf8DecodeReplaceAux fuel rest
    else if 0xC2 ≤ b && b ≤ 0xDF then
      match rest with
      | c1 :: rest1 =>
        if isContByte c1 then
          Char.ofNat ((b - 0xC0) * 64 + (c1 - 0x80)) :: utf8DecodeReplaceAux fuel rest1
        else replChar :: utf8DecodeReplaceAux fuel rest
      | [] => [replChar]
    else if 0xE0 ≤ b && b ≤ 0xEF then
      let lo1 := if b = 0xE0 then 0xA0 else 0x80
      let hi1 := if b = 0xED then 0x9F else 0xBF
      match rest with
      | c1 :: rest1 =>
        if lo1 ≤ c1 && c1 ≤ hi1 then
          match rest1 with
          | c2 :: rest2 =>
            if isContByte c2 then
              Char.ofNat ((b - 0xE0) * 4096 + (c1 - 0x80) * 64 + (c2 - 0x80)) ::
                utf8DecodeReplaceAux fuel rest2
            else replChar :: utf8DecodeReplaceAux fuel rest1
          | [] => [replChar]
        else replChar :: utf8DecodeReplaceAux fuel rest
      | [] => [replChar]
    else if 0xF0 ≤ b && b ≤ 0xF4 then
      let lo1 := if b = 0xF0 then 0x90 else 0x80
      let hi1 := if b = 0xF4 then 0x8F else 0xBF
      match rest with
      | c1 :: rest1 =>
        if lo1 ≤ c1 && c1 ≤ hi1 then
          match rest1 with
          | c2 :: rest2 =>
            if isContByte c2 then
              match rest2 with
              | c3 :: rest3 =>
                if isContByte c3 then
                  Char.ofNat ((b - 0xF0) * 262144 + (c1 - 0x80) * 4096 +
                      (c2 - 0x80) * 64 + (c3 - 0x80)) ::
                    utf8DecodeReplaceAux fuel rest3
                else replChar :: utf8DecodeReplaceAux fuel rest2
              | [] => [replChar]
            else replChar :: utf8DecodeReplaceAux fuel rest1
          | [] => [replChar]
        else replChar :: utf8DecodeReplaceAux fuel rest
      | [] => [replChar]
    else
      replChar :: utf8DecodeReplaceAux fuel rest

/-- Model of the Python expression bytes.decode applied with utf8 and the
replace error handler, as used throughout tracing.py: decodes a byte list to
a string, never failing, substituting the replacement character for invalid
input. -/
def utf8DecodeReplace (bs : List Nat) : String :=
  String.mk (utf8DecodeReplaceAux bs.length bs)

/-- A Python value that is either a text string or a byte string, as
distinguished by the isinstance checks on statements in tracing.py. -/
inductive PyStrOrBytes where
  | s (v : String)
  | b (bs : List Nat)
deriving DecidableEq

/-- Model of the Python expression arg.split applied to a single space
followed by indexing the first element: the prefix of the string before the
first space character. Splitting the empty string this way yields a list
holding one empty string, so the first element is the empty string, matching
takeWhile on the empty character list. -/
def pySplitSpaceHead (s : String) : String :=
  String.mk (s.data.takeWhile (fun c => c != spaceChar))

/-- Translation of tracing.py _operation_name (lines 8 to 14): builds the
span operation name from the caller class name, the function name, and an
optional statement, decoding byte statements lossily. -/
def operationNameOf (className funcName : String) (statement : PyStrOrBytes) : String :=
  let st :=
    match statement with
    | PyStrOrBytes.b bs => utf8DecodeReplace bs
    | PyStrOrBytes.s v => v
  className ++ "." ++ funcName ++ "(" ++ st ++ ")"

/-- The operation name for a statement already held as text (every call site
in the repository passes a text statement or the default empty string). -/
def operationName (className funcName statement : String) : String :=
  operationNameOf className funcName (PyStrOrBytes.s statement)

/-- Statement argument accepted by the generic Cursor wrapper in tracing.py:
text or bytes (those are the cases its _get_statement distinguishes). -/
inductive PlainStmt where
  | str (s : String)
  | bytes (bs : List Nat)
deriving DecidableEq

/-- Statement argument accepted by the psycopg cursor mixin: text, bytes, or
a Composed query object, modelled by the list of the rendered strings of its
parts (the part attribute named string in psycopg2.sql). -/
inductive PgStmt where
  | str (s : String)
  | bytes (bs : List Nat)
  | composed (parts : List String)
deriving DecidableEq

/-- Translation of _Cursor._format_query (tracing.py lines 129 to 132):
bytes are decoded lossily, text passes through unchanged. -/
def formatQuery : PyStrOrBytes → String
  | PyStrOrBytes.b bs => utf8DecodeReplace bs
  | PyStrOrBytes.s q => q

/-- Translation of Cursor._get_statement (tracing.py lines 170 to 175):
decode bytes lossily, then take the first element of splitting on a single
space. -/
def cursorGetStatement : PlainStmt → String
  | PlainStmt.bytes bs => pySplitSpaceHead (utf8DecodeReplace bs)
  | PlainStmt.str s => pySplitSpaceHead s

/-- Translation of Cursor._get_query (tracing.py lines 177 to 178). -/
def cursorGetQuery : PlainStmt → String
  | PlainStmt.bytes bs => formatQuery (PyStrOrBytes.b bs)
  | PlainStmt.str s => formatQuery (PyStrOrBytes.s s)

/-- Model of Composed.as_string from psycopg2.sql (an external collaborator):
renders the composed query to the concatenation of the rendered strings of
its parts, using the connection only as rendering context. -/
def composedAsString (parts : List String) : String := String.join parts

/-- Translation of _PsycopgCursorTracing._get_statement (psycopg2_tracing.py
lines 26 to 36): bytes are decoded lossily; a Composed with at least one
part contributes the rendered string of its first part and an empty Composed
contributes the empty string; the result is then split on a single space and
the first element taken. -/
def psycopgGetStatement : PgStmt → String
  | PgStmt.bytes bs => pySplitSpaceHead (utf8DecodeReplace bs)
  | PgStmt.composed parts =>
    pySplitSpaceHead (match parts with
      | [] => ""
      | p :: _ => p)
  | PgStmt.str s => pySplitSpaceHead s

/-- Translation of _PsycopgCursorTracing._get_query (psycopg2_tracing.py
lines 38 to 42): a Composed is rendered with the connection as context, then
the result goes through _format_query. -/
def psycopgGetQuery : PgStmt → String
  | PgStmt.composed parts => formatQuery (PyStrOrBytes.s (composedAsString parts))
  | PgStmt.bytes bs => formatQuery (PyStrOrBytes.b bs)
  | PgStmt.str s => formatQuery (PyStrOrBytes.s s)

/-- The set_tag events produced by iterating the static span_tags mapping. -/
def staticTagEvents (spanTags : List (String × TagVal)) : List TraceEvent :=
  spanTags.map (fun kv => TraceEvent.setTag kv.1 kv.2)

/-- The error tag events both _traced_execution bodies set when the
underlying call raises (tracing.py lines 45 to 50 and 148 to 153). -/
def errorTagEvents (e : PyErr) : List TraceEvent :=
  [TraceEvent.setTag "error" (TagVal.bool true),
   TraceEvent.setTag "sfx.error.message" (TagVal.str e.msg),
   TraceEvent.setTag "sfx.error.object" (TagVal.str e.cls),
   TraceEvent.setTag "sfx.error.kind" (TagVal.str e.kind),
   TraceEvent.setTag "sfx.error.stack" (TagVal.str e.stack)]

/-- Translation of _ConnectionTracing._traced_execution (tracing.py lines 33
to 52): start a span, tag db.type and span.kind, set every static tag, run
the underlying call; on failure set the error tags and re-raise the same
exception; the span is finished when the with-block exits, on both paths. -/
def connTracedExecution (spanTags : List (String × TagVal)) (opName : String)
    (call : Except PyErr α) : List TraceEvent × Except PyErr α :=
  let pre := TraceEvent.startSpan opName ::
    TraceEvent.setTag "db.type" (TagVal.str "sql") ::
    TraceEvent.setTag "span.kind" (TagVal.str "client") ::
    staticTagEvents spanTags
  match call with
  | Except.error e => (pre ++ errorTagEvents e ++ [TraceEvent.finishSpan], Except.error e)
  | Except.ok v => (pre ++ [TraceEvent.finishSpan], Except.ok v)

/-- Translation of _Cursor._traced_execution (tracing.py lines 134 to 156)
after the operation name and the db.statement value have been computed: the
cursor variant also tags db.statement before the static tags, and tags
db.rows_produced with the post-call rowcount on success only. -/
def cursorTracedExecutionCore (spanTags : List (String × TagVal)) (opName query : String)
    (call : Except PyErr α) (rowcount : Int) : List TraceEvent × Except PyErr α :=
  let pre := TraceEvent.startSpan opName ::
    TraceEvent.setTag "db.type" (TagVal.str "sql") ::
    TraceEvent.setTag "span.kind" (TagVal.str "client") ::
    TraceEvent.setTag "db.statement" (TagVal.str query) ::
    staticTagEvents spanTags
  match call with
  | Except.error e => (pre ++ errorTagEvents e ++ [TraceEvent.finishSpan], Except.error e)
  | Except.ok v =>
    (pre ++ [TraceEvent.setTag "db.rows_produced" (TagVal.int rowcount),
      TraceEvent.finishSpan], Except.ok v)

/-- Per-cursor tracing configuration (the _self attributes set by
_Cursor.__init__, tracing.py lines 113 to 119). -/
structure CursorCfg where
  spanTags : List (String × TagVal)
  traceExecute : Bool
  traceExecutemany : Bool
  traceCallproc : Bool
deriving DecidableEq

/-- Per-connection tracing configuration (the _self attributes set by
_ConnectionTracing.__init__, tracing.py lines 23 to 31), together with the
class name the wrapper reports, used by the precomputed commit and rollback
operation names. -/
structure ConnCfg where
  className : String
  spanTags : List (String × TagVal)
  traceCommit : Bool
  traceRollback : Bool
  traceExecute : Bool
  traceExecutemany : Bool
  traceCallproc : Bool
deriving DecidableEq

/-- _Cursor._traced_execution for the generic Cursor: the statement fragment
and the query string come from Cursor._get_statement and Cursor._get_query. -/
def cursorTracedExecution (cfg : CursorCfg) (className funcName : String)
    (stmt : PlainStmt) (call : Except PyErr α) (rowcount : Int) :
    List TraceEvent × Except PyErr α :=
  cursorTracedExecutionCore cfg.spanTags
    (operationName className funcName (cursorGetStatement stmt))
    (cursorGetQuery stmt) call rowcount

/-- Translation of Cursor.execute (tracing.py lines 180 to 184). -/
def cursorExecute (cfg : CursorCfg) (className : String) (stmt : PlainStmt)
    (call : Except PyErr α) (rowcount : Int) : List TraceEvent × Except PyErr α :=
  if cfg.traceExecute = false then ([], call)
  else cursorTracedExecution cfg className "execute" stmt call rowcount

/-- Translation of Cursor.executemany (tracing.py lines 186 to 190). -/
def cursorExecutemany (cfg : CursorCfg) (className : String) (stmt : PlainStmt)
    (call : Except PyErr α) (rowcount : Int) : List TraceEvent × Except PyErr α :=
  if cfg.traceExecutemany = false then ([], call)
  else cursorTracedExecution cfg className "executemany" stmt call rowcount

/-- Translation of Cursor.callproc (tracing.py lines 192 to 196): the
procedure name argument goes through the same _get_statement path. -/
def cursorCallproc (cfg : CursorCfg) (className : String) (stmt : PlainStmt)
    (call : Except PyErr α) (rowcount : Int) : List TraceEvent × Except PyErr α :=
  if cfg.traceCallproc = false then ([], call)
  else cursorTracedExecution cfg className "callproc" stmt call rowcount

/-- _Cursor._traced_execution for the psycopg cursor mixin: fragment and
query come from _PsycopgCursorTracing._get_statement and _get_query. -/
def psycopgTracedExecution (cfg : CursorCfg) (className funcName : String)
    (stmt : PgStmt) (call : Except PyErr α) (rowcount : Int) :
    List TraceEvent × Except PyErr α :=
  cursorTracedExecutionCore cfg.spanTags
    (operationName className funcName (psycopgGetStatement stmt))
    (psycopgGetQuery stmt) call rowcount

/-- Translation of _PsycopgCursorTracing.execute (psycopg2_tracing.py lines
44 to 48). -/
def psycopgExecute (cfg : CursorCfg) (className : String) (stmt : PgStmt)
    (call : Except PyErr α) (rowcount : Int) : List TraceEvent × Except PyErr α :=
  if cfg.traceExecute = false then ([], call)
  else psycopgTracedExecution cfg className "execute" stmt call rowcount

/-- Translation of _PsycopgCursorTracing.executemany (psycopg2_tracing.py
lines 50 to 54). -/
def psycopgExecutemany (cfg : CursorCfg) (className : String) (stmt : PgStmt)
    (call : Except PyErr α) (rowcount : Int) : List TraceEvent × Except PyErr α :=
  if cfg.traceExecutemany = false then ([], call)
  else psycopgTracedExecution cfg className "executemany" stmt call rowcount

/-- Translation of _PsycopgCursorTracing.callproc (psycopg2_tracing.py lines
56 to 60). -/
def psycopgCallproc (cfg : CursorCfg) (className : String) (stmt : PgStmt)
    (call : Except PyErr α) (rowcount : Int) : List TraceEvent × Except PyErr α :=
  if cfg.traceCallproc = false then ([], call)
  else psycopgTracedExecution cfg className "callproc" stmt call rowcount

/-- The three cursor operation kinds. -/
inductive CursorOp where
  | execute
  | executemany
  | callproc
deriving DecidableEq

/-- The trace flag governing each cursor operation. -/
def cursorOpFlag (cfg : CursorCfg) : CursorOp → Bool
  | CursorOp.execute => cfg.traceExecute
  | CursorOp.executemany => cfg.traceExecutemany
  | CursorOp.callproc => cfg.traceCallproc

/-- The Python method name of each cursor operation. -/
def cursorOpFuncName : CursorOp → String
  | CursorOp.execute => "execute"
  | CursorOp.executemany => "executemany"
  | CursorOp.callproc => "callproc"

/-- Dispatcher over the three traced methods of the generic Cursor. -/
def cursorRunOp (cfg : CursorCfg) (className : String) (op : CursorOp)
    (stmt : PlainStmt) (call : Except PyErr α) (rowcount : Int) :
    List TraceEvent × Except PyErr α :=
  match op with
  | CursorOp.execute => cursorExecute cfg className stmt call rowcount
  | CursorOp.executemany => cursorExecutemany cfg className stmt call rowcount
  | CursorOp.callproc => cursorCallproc cfg className stmt call rowcount

/-- Dispatcher over the three traced methods of the psycopg cursor mixin. -/
def psycopgRunOp (cfg : CursorCfg) (className : String) (op : CursorOp)
    (stmt : PgStmt) (call : Except PyErr α) (rowcount : Int) :
    List TraceEvent × Except PyErr α :=
  match op with
  | CursorOp.execute => psycopgExecute cfg className stmt call rowcount
  | CursorOp.executemany => psycopgExecutemany cfg className stmt call rowcount
  | CursorOp.callproc => psycopgCallproc cfg className stmt call rowcount

/-- The precomputed commit operation name (tracing.py line 67: the statement
argument defaults to the empty string). -/
def commitOperationName (c : ConnCfg) : String :=
  operationName c.className "commit" ""

/-- The precomputed rollback operation name (tracing.py line 68). -/
def rollbackOperationName (c : ConnCfg) : String :=
  operationName c.className "rollback" ""

/-- Translation of ConnectionTracing.commit (tracing.py lines 77 to 81). -/
def connCommit (c : ConnCfg) (call : Except PyErr α) :
    List TraceEvent × Except PyErr α :=
  if c.traceCommit = false then ([], call)
  else connTracedExecution c.spanTags (commitOperationName c) call

/-- Translation of ConnectionTracing.rollback (tracing.py lines 83 to 87). -/
def connRollback (c : ConnCfg) (call : Except PyErr α) :
    List TraceEvent × Except PyErr α :=
  if c.traceRollback = false then ([], call)
  else connTracedExecution c.spanTags (rollbackOperationName c) call

/-- The two transaction control operations of the traced connection. -/
inductive ConnOp where
  | commit
  | rollback
deriving DecidableEq

/-- The trace flag governing each connection operation. -/
def connOpFlag (c : ConnCfg) : ConnOp → Bool
  | ConnOp.commit => c.traceCommit
  | ConnOp.rollback => c.traceRollback

/-- The precomputed operation name of each connection operation. -/
def connOpName (c : ConnCfg) : ConnOp → String
  | ConnOp.commit => commitOperationName c
  | ConnOp.rollback => rollbackOperationName c

/-- Dispatcher over the two traced transaction methods. -/
def connRunOp (c : ConnCfg) (op : ConnOp) (call : Except PyErr α) :
    List TraceEvent × Except PyErr α :=
  match op with
  | ConnOp.commit => connCommit c call
  | ConnOp.rollback => connRollback c call

/-- Translation of ConnectionTracing.cursor (tracing.py lines 70 to 75): the
new cursor shares the connection static tags and tracer, and each cursor
trace flag is the keyword override when supplied, otherwise the connection
flag. -/
def connCursor (c : ConnCfg) (oExecute oExecutemany oCallproc : Option Bool) : CursorCfg :=
  { spanTags := c.spanTags
    traceExecute := oExecute.getD c.traceExecute
    traceExecutemany := oExecutemany.getD c.traceExecutemany
    traceCallproc := oCallproc.getD c.traceCallproc }

/-- Translation of _ConnectionTracing.__enter__ (tracing.py lines 54 to 55):
entering the connection scope returns self.cursor() with no arguments. -/
def connEnter (c : ConnCfg) : CursorCfg :=
  connCursor c none none none

/-- Translation of ConnectionTracing.__exit__ (tracing.py lines 89 to 104):
when an exception is propagating, the rollback flag and rollback operation
name govern; otherwise the commit flag and commit operation name. The
underlying __exit__ is invoked either directly (flag off) or under
_traced_execution (flag on), and its result is returned either way. The
underlying exit is modelled as ok r when it returns a value of truthiness r
and error e when it itself raises. -/
def connExit (c : ConnCfg) (exc : Option PyErr) (underlyingExit : Except PyErr Bool) :
    List TraceEvent × Except PyErr Bool :=
  match exc with
  | some _ =>
    if c.traceRollback = false then ([], underlyingExit)
    else connTracedExecution c.spanTags (rollbackOperationName c) underlyingExit
  | none =>
    if c.traceCommit = false then ([], underlyingExit)
    else connTracedExecution c.spanTags (commitOperationName c) underlyingExit

/-- Semantics of the Python with statement around a connection scope: after
the managers __exit__ returns, the pending exception is suppressed exactly
when the returned value is truthy, and an exception raised by __exit__
itself replaces the pending one. -/
def withBlockOutcome (exc : Option PyErr) (exitResult : Except PyErr Bool) : Option PyErr :=
  match exitResult with
  | Except.error e2 => some e2
  | Except.ok suppress => if suppress then none else exc

/-- The two process-wide registries of psycopg2_tracing.py (lines 64 and
141) plus a supply of fresh class identities: association lists from an
underlying factory class identity to the generated combined class identity. -/
structure FactoryCaches where
  cursorClasses : List (Nat × Nat)
  connClasses : List (Nat × Nat)
  nextClassId : Nat
deriving DecidableEq

/-- Dictionary lookup in a registry. -/
def lookupFactory : List (Nat × Nat) → Nat → Option Nat
  | [], _ => none
  | kv :: rest, k => if kv.1 = k then some kv.2 else lookupFactory rest k

/-- Dictionary assignment in a registry: replace the binding when present,
append it otherwise. -/
def setFactory : List (Nat × Nat) → Nat → Nat → List (Nat × Nat)
  | [], k, c => [(k, c)]
  | kv :: rest, k, c =>
    if kv.1 = k then (k, c) :: rest else kv :: setFactory rest k c

/-- Translation of PsycopgCursorTracing.__new__ (psycopg2_tracing.py lines
73 to 96), restricted to its class-cache decision: under the lock, when the
factory is not yet a key of _cursor_factory_classes, define a fresh combined
class and store it there; then instantiate the class found under the factory
key. The returned identity is the class that gets instantiated, none
modelling a KeyError. -/
def psycopgCursorTracingNew (st : FactoryCaches) (factory : Nat) :
    FactoryCaches × Option Nat :=
  let st1 :=
    if (lookupFactory st.cursorClasses factory).isSome then st
    else { st with
      cursorClasses := setFactory st.cursorClasses factory st.nextClassId
      nextClassId := st.nextClassId + 1 }
  (st1, lookupFactory st1.cursorClasses factory)

/-- Translation of PsycopgConnectionTracing.__new__ (psycopg2_tracing.py
lines 162 to 192), restricted to its class-cache decision. The membership
test on line 166 reads _cursor_factory_classes while the store on line 190
writes _connection_factory_classes, and that asymmetry is translated
verbatim: when the factory is not a key of the CURSOR registry, define a
fresh combined class and store it in the CONNECTION registry; then
instantiate the class found under the factory key of the connection
registry, none modelling a KeyError. -/
def psycopgConnectionTracingNew (st : FactoryCaches) (factory : Nat) :
    FactoryCaches × Option Nat :=
  let st1 :=
    if (lookupFactory st.cursorClasses factory).isSome then st
    else { st with
      connClasses := setFactory st.connClasses factory st.nextClassId
      nextClassId := st.nextClassId + 1 }
  (st1, lookupFactory st1.connClasses factory)

/-- Names of the spans started in an event list, in order. -/
def spanStarts (evs : List TraceEvent) : List String :=
  evs.filterMap (fun e =>
    match e with
    | TraceEvent.startSpan n => some n
    | _ => none)

/-- Number of span finishes in an event list. -/
def finishCount (evs : List TraceEvent) : Nat :=
  evs.countP (fun e =>
    match e with
    | TraceEvent.finishSpan => true
    | _ => false)

/-- The value of the last setTag event for a key, that is the final value
the span carries for that key after all writes. -/
def lastTagVal : List TraceEvent → String → Option TagVal
  | [], _ => none
  | e :: rest, k =>
    match lastTagVal rest k with
    | some v => some v
    | none =>
      match e with
      | TraceEvent.setTag k2 v => if k2 = k then some v else none
      | _ => none

/-- The value of the last binding of a key in an association list. -/
def lastAssoc : List (String × TagVal) → String → Option TagVal
  | [], _ => none
  | kv :: rest, k =>
    match lastAssoc rest k with
    | some v => some v
    | none => if kv.1 = k then some kv.2 else none

/-- Whether any setTag event in the list uses the given key. -/
def hasTagKey (evs : List TraceEvent) (k : String) : Bool :=
  evs.any (fun e =>
    match e with
    | TraceEvent.setTag k2 _ => k2 = k
    | _ => false)

/-- Appending on the left preserves a final tag value found on the right. -/
theorem lastTagVal_append_some {b : List TraceEvent} {k : String} {v : TagVal}
    (a : List TraceEvent) (h : lastTagVal b k = some v) :
    lastTagVal (a ++ b) k = some v := by
  induction a with
  | nil => simpa using h
  | cons e rest ih => simp [lastTagVal, ih]

/-- When the right part never sets the key, the final value comes from the
left part. -/
theorem lastTagVal_append_none {b : List TraceEvent} {k : String}
    (a : List TraceEvent) (h : lastTagVal b k = none) :
    lastTagVal (a ++ b) k = lastTagVal a k := by
  induction a with
  | nil => simpa using h
  | cons e rest ih => simp [lastTagVal, ih]

/-- The final value the static tag events give a key is the last binding of
that key in the span_tags mapping. -/
theorem lastTagVal_staticTagEvents (l : List (String × TagVal)) (k : String) :
    lastTagVal (staticTagEvents l) k = lastAssoc l k := by
  induction l with
  | nil => rfl
  | cons kv rest ih =>
    simp only [staticTagEvents, List.map_cons] at ih ⊢
    simp [lastTagVal, lastAssoc, ih]

/-- A key bound nowhere in the mapping has no final value. -/
theorem lastAssoc_of_not_mem (l : List (String × TagVal)) (k : String)
    (h : ∀ kv ∈ l, kv.1 ≠ k) : lastAssoc l k = none := by
  induction l with
  | nil => rfl
  | cons kv rest ih =>
    have h1 : kv.1 ≠ k := h kv (by simp)
    have h2 : ∀ p ∈ rest, p.1 ≠ k := fun p hp => h p (by simp [hp])
    simp [lastAssoc, ih h2, h1]

/-- In a mapping with pairwise distinct keys, as a Python dict has, the
binding of a key is its final value. -/
theorem lastAssoc_of_mem_nodup (l : List (String × TagVal)) (k : String) (v : TagVal)
    (hnd : (l.map Prod.fst).Nodup) (hm : (k, v) ∈ l) :
    lastAssoc l k = some v := by
  induction l with
  | nil => cases hm
  | cons kv rest ih =>
    rw [List.map_cons, List.nodup_cons] at hnd
    rcases List.mem_cons.mp hm with heq | hmem
    · have hk : kv.1 = k := by rw [← heq]
      have hv : kv.2 = v := by rw [← heq]
      have hrest : ∀ p ∈ rest, p.1 ≠ k := by
        intro p hp hpk
        apply hnd.1
        have hmem2 : p.1 ∈ rest.map Prod.fst := List.mem_map_of_mem Prod.fst hp
        rwa [hpk, ← hk] at hmem2
      simp [lastAssoc, lastAssoc_of_not_mem rest k hrest, hk, hv]
    · simp [lastAssoc, ih hnd.2 hmem]

/-- Span starts distribute over appending. -/
theorem spanStarts_append (a b : List TraceEvent) :
    spanStarts (a ++ b) = spanStarts a ++ spanStarts b := by
  simp [spanStarts]

/-- Static tag events start no span. -/
theorem spanStarts_staticTagEvents (l : List (String × TagVal)) :
    spanStarts (staticTagEvents l) = [] := by
  induction l with
  | nil => rfl
  | cons kv rest ih => simp [staticTagEvents, spanStarts]

/-- Error tag events start no span. -/
theorem spanStarts_errorTagEvents (e : PyErr) :
    spanStarts (errorTagEvents e) = [] := rfl

/-- Finish counts distribute over appending. -/
theorem finishCount_append (a b : List TraceEvent) :
    finishCount (a ++ b) = finishCount a + finishCount b := by
  simp [finishCount, List.countP_append]

/-- Static tag events finish no span. -/
theorem finishCount_staticTagEvents (l : List (String × TagVal)) :
    finishCount (staticTagEvents l) = 0 := by
  induction l with
  | nil => rfl
  | cons kv rest ih => simp [staticTagEvents, finishCount]

/-- Error tag events finish no span. -/
theorem finishCount_errorTagEvents (e : PyErr) :
    finishCount (errorTagEvents e) = 0 := rfl

/-- The last element of a list ending in a span finish. -/
theorem getLast_concat_finish (l : List TraceEvent) :
    (l ++ [TraceEvent.finishSpan]).getLast? = some TraceEvent.finishSpan :=
  List.getLast?_concat l

/-- Static tag events set exactly the keys of the mapping. -/
theorem hasTagKey_staticTagEvents (l : List (String × TagVal)) (k : String)
    (h : ∀ kv ∈ l, kv.1 ≠ k) : hasTagKey (staticTagEvents l) k = false := by
  induction l with
  | nil => rfl
  | cons kv rest ih =>
    have h1 : kv.1 ≠ k := h kv (by simp)
    have h2 : ∀ p ∈ rest, p.1 ≠ k := fun p hp => h p (by simp [hp])
    have ihr := ih h2
    simp only [staticTagEvents, List.map_cons] at ihr ⊢
    simp [hasTagKey, h1] at ihr ⊢
    exact ihr

/-- Membership of a static pair in the static tag events. -/
theorem setTag_mem_staticTagEvents {l : List (String × TagVal)} {k : String} {v : TagVal}
    (h : (k, v) ∈ l) : TraceEvent.setTag k v ∈ staticTagEvents l := by
  simpa [staticTagEvents] using List.mem_map_of_mem (fun kv => TraceEvent.setTag kv.1 kv.2) h

/-- A span start passes through the span-name projection. -/
theorem spanStarts_cons_start (n : String) (l : List TraceEvent) :
    spanStarts (TraceEvent.startSpan n :: l) = n :: spanStarts l := by
  simp [spanStarts]

/-- A tag write starts no span. -/
theorem spanStarts_cons_setTag (k : String) (v : TagVal) (l : List TraceEvent) :
    spanStarts (TraceEvent.setTag k v :: l) = spanStarts l := by
  simp [spanStarts]

/-- A span finish starts no span. -/
theorem spanStarts_cons_finish (l : List TraceEvent) :
    spanStarts (TraceEvent.finishSpan :: l) = spanStarts l := by
  simp [spanStarts]

/-- The empty event list has no span starts. -/
theorem spanStarts_nil : spanStarts [] = [] := rfl

/-- A span start finishes no span. -/
theorem finishCount_cons_start (n : String) (l : List TraceEvent) :
    finishCount (TraceEvent.startSpan n :: l) = finishCount l := by
  simp [finishCount]

/-- A tag write finishes no span. -/
theorem finishCount_cons_setTag (k : String) (v : TagVal) (l : List TraceEvent) :
    finishCount (TraceEvent.setTag k v :: l) = finishCount l := by
  simp [finishCount]

/-- A finish event adds one to the finish count. -/
theorem finishCount_cons_finish (l : List TraceEvent) :
    finishCount (TraceEvent.finishSpan :: l) = finishCount l + 1 := by
  simp [finishCount, List.countP_cons]

/-- The empty event list finishes no span. -/
theorem finishCount_nil : finishCount [] = 0 := rfl

/-- Prepending any event preserves a final finish event. -/
theorem getLast_cons_finish {l : List TraceEvent} {e : TraceEvent}
    (h : l.getLast? = some TraceEvent.finishSpan) :
    (e :: l).getLast? = some TraceEvent.finishSpan := by
  cases l with
  | nil => simp at h
  | cons x xs => rw [List.getLast?_cons_cons]; exact h

/-- Canonical shape of the cursor traced execution on a successful call. -/
theorem cursorCore_ok_eq (tags : List (String × TagVal)) (op q : String) (v : α) (rc : Int) :
    cursorTracedExecutionCore tags op q (Except.ok v) rc =
      (TraceEvent.startSpan op ::
        TraceEvent.setTag "db.type" (TagVal.str "sql") ::
        TraceEvent.setTag "span.kind" (TagVal.str "client") ::
        TraceEvent.setTag "db.statement" (TagVal.str q) ::
        (staticTagEvents tags ++
          [TraceEvent.setTag "db.rows_produced" (TagVal.int rc), TraceEvent.finishSpan]),
        Except.ok v) := rfl

/-- Canonical shape of the cursor traced execution on a failing call. -/
theorem cursorCore_err_eq (tags : List (String × TagVal)) (op q : String) (e : PyErr)
    (rc : Int) :
    cursorTracedExecutionCore (α := α) tags op q (Except.error e) rc =
      (TraceEvent.startSpan op ::
        TraceEvent.setTag "db.type" (TagVal.str "sql") ::
        TraceEvent.setTag "span.kind" (TagVal.str "client") ::
        TraceEvent.setTag "db.statement" (TagVal.str q) ::
        ((staticTagEvents tags ++ errorTagEvents e) ++ [TraceEvent.finishSpan]),
        Except.error e) := rfl

/-- Canonical shape of the connection traced execution on a successful call. -/
theorem connCore_ok_eq (tags : List (String × TagVal)) (op : String) (v : α) :
    connTracedExecution tags op (Except.ok v) =
      (TraceEvent.startSpan op ::
        TraceEvent.setTag "db.type" (TagVal.str "sql") ::
        TraceEvent.setTag "span.kind" (TagVal.str "client") ::
        (staticTagEvents tags ++ [TraceEvent.finishSpan]),
        Except.ok v) := rfl

/-- Canonical shape of the connection traced execution on a failing call. -/
theorem connCore_err_eq (tags : List (String × TagVal)) (op : String) (e : PyErr) :
    connTracedExecution (α := α) tags op (Except.error e) =
      (TraceEvent.startSpan op ::
        TraceEvent.setTag "db.type" (TagVal.str "sql") ::
        TraceEvent.setTag "span.kind" (TagVal.str "client") ::
        ((staticTagEvents tags ++ errorTagEvents e) ++ [TraceEvent.finishSpan]),
        Except.error e) := rfl

/-- Exactly one span is started by a successful cursor traced execution, and
its name is the computed operation name. -/
theorem cursorCore_ok_spanStarts (tags : List (String × TagVal)) (op q : String)
    (v : α) (rc : Int) :
    spanStarts (cursorTracedExecutionCore tags op q (Except.ok v) rc).1 = [op] := by
  rw [cursorCore_ok_eq]
  simp only [spanStarts_cons_start, spanStarts_cons_setTag, spanStarts_cons_finish,
    spanStarts_append, spanStarts_staticTagEvents, spanStarts_nil, List.nil_append]

/-- Exactly one span is started by a failing cursor traced execution. -/
theorem cursorCore_err_spanStarts (tags : List (String × TagVal)) (op q : String)
    (e : PyErr) (rc : Int) :
    spanStarts (cursorTracedExecutionCore (α := α) tags op q (Except.error e) rc).1 = [op] := by
  rw [cursorCore_err_eq]
  simp only [spanStarts_cons_start, spanStarts_cons_setTag, spanStarts_cons_finish,
    spanStarts_append, spanStarts_staticTagEvents, spanStarts_errorTagEvents,
    spanStarts_nil, List.nil_append, List.append_nil]

/-- Exactly one span is started by a successful connection traced execution. -/
theorem connCore_ok_spanStarts (tags : List (String × TagVal)) (op : String) (v : α) :
    spanStarts (connTracedExecution tags op (Except.ok v)).1 = [op] := by
  rw [connCore_ok_eq]
  simp only [spanStarts_cons_start, spanStarts_cons_setTag, spanStarts_cons_finish,
    spanStarts_append, spanStarts_staticTagEvents, spanStarts_nil, List.nil_append]

/-- Exactly one span is started by a failing connection traced execution. -/
theorem connCore_err_spanStarts (tags : List (String × TagVal)) (op : String) (e : PyErr) :
    spanStarts (connTracedExecution (α := α) tags op (Except.error e)).1 = [op] := by
  rw [connCore_err_eq]
  simp only [spanStarts_cons_start, spanStarts_cons_setTag, spanStarts_cons_finish,
    spanStarts_append, spanStarts_staticTagEvents, spanStarts_errorTagEvents,
    spanStarts_nil, List.nil_append, List.append_nil]

/-- Exactly one finish event on the success path of the cursor core. -/
theorem cursorCore_ok_finishCount (tags : List (String × TagVal)) (op q : String)
    (v : α) (rc : Int) :
    finishCount (cursorTracedExecutionCore tags op q (Except.ok v) rc).1 = 1 := by
  rw [cursorCore_ok_eq]
  simp only [finishCount_cons_start, finishCount_cons_setTag, finishCount_cons_finish,
    finishCount_append, finishCount_staticTagEvents, finishCount_nil]

/-- Exactly one finish event on the failure path of the cursor core. -/
theorem cursorCore_err_finishCount (tags : List (String × TagVal)) (op q : String)
    (e : PyErr) (rc : Int) :
    finishCount (cursorTracedExecutionCore (α := α) tags op q (Except.error e) rc).1 = 1 := by
  rw [cursorCore_err_eq]
  simp only [finishCount_cons_start, finishCount_cons_setTag, finishCount_cons_finish,
    finishCount_append, finishCount_staticTagEvents, finishCount_errorTagEvents,
    finishCount_nil]

/-- Exactly one finish event on the success path of the connection core. -/
theorem connCore_ok_finishCount (tags : List (String × TagVal)) (op : String) (v : α) :
    finishCount (connTracedExecution tags op (Except.ok v)).1 = 1 := by
  rw [connCore_ok_eq]
  simp only [finishCount_cons_start, finishCount_cons_setTag, finishCount_cons_finish,
    finishCount_append, finishCount_staticTagEvents, finishCount_nil]

/-- Exactly one finish event on the failure path of the connection core. -/
theorem connCore_err_finishCount (tags : List (String × TagVal)) (op : String) (e : PyErr) :
    finishCount (connTracedExecution (α := α) tags op (Except.error e)).1 = 1 := by
  rw [connCore_err_eq]
  simp only [finishCount_cons_start, finishCount_cons_setTag, finishCount_cons_finish,
    finishCount_append, finishCount_staticTagEvents, finishCount_errorTagEvents,
    finishCount_nil]

/-- The failure path of the cursor core finishes the span as its final
tracer interaction, before the exception continues to propagate. -/
theorem cursorCore_err_getLast (tags : List (String × TagVal)) (op q : String)
    (e : PyErr) (rc : Int) :
    (cursorTracedExecutionCore (α := α) tags op q (Except.error e) rc).1.getLast? =
      some TraceEvent.finishSpan := by
  rw [cursorCore_err_eq]
  exact getLast_cons_finish (getLast_cons_finish (getLast_cons_finish
    (getLast_cons_finish (List.getLast?_concat _))))

/-- The success path of the cursor core finishes the span as its final
tracer interaction. -/
theorem cursorCore_ok_getLast (tags : List (String × TagVal)) (op q : String)
    (v : α) (rc : Int) :
    (cursorTracedExecutionCore tags op q (Except.ok v) rc).1.getLast? =
      some TraceEvent.finishSpan := by
  rw [cursorCore_ok_eq]
  have inner : (staticTagEvents tags ++
      [TraceEvent.setTag "db.rows_produced" (TagVal.int rc),
       TraceEvent.finishSpan]).getLast? = some TraceEvent.finishSpan := by
    rw [List.getLast?_append_cons]
    rfl
  exact getLast_cons_finish (getLast_cons_finish (getLast_cons_finish
    (getLast_cons_finish inner)))

/-- The failure path of the connection core finishes the span last. -/
theorem connCore_err_getLast (tags : List (String × TagVal)) (op : String) (e : PyErr) :
    (connTracedExecution (α := α) tags op (Except.error e)).1.getLast? =
      some TraceEvent.finishSpan := by
  rw [connCore_err_eq]
  exact getLast_cons_finish (getLast_cons_finish (getLast_cons_finish
    (List.getLast?_concat _)))

/-- The success path of the connection core finishes the span last. -/
theorem connCore_ok_getLast (tags : List (String × TagVal)) (op : String) (v : α) :
    (connTracedExecution tags op (Except.ok v)).1.getLast? =
      some TraceEvent.finishSpan := by
  rw [connCore_ok_eq]
  exact getLast_cons_finish (getLast_cons_finish (getLast_cons_finish
    (List.getLast?_concat _)))

/-- The cursor core returns or re-raises exactly what the underlying call
returned or raised. -/
theorem cursorCore_snd (tags : List (String × TagVal)) (op q : String)
    (call : Except PyErr α) (rc : Int) :
    (cursorTracedExecutionCore tags op q call rc).2 = call := by
  cases call <;> rfl

/-- The connection core returns or re-raises exactly what the underlying
call returned or raised. -/
theorem connCore_snd (tags : List (String × TagVal)) (op : String)
    (call : Except PyErr α) :
    (connTracedExecution tags op call).2 = call := by
  cases call <;> rfl

/-- Final value of the standard tags the cursor core writes before the
static tags, looked up by key. -/
def cursorBaseTagLookup (q : String) (k : String) : Option TagVal :=
  if "db.statement" = k then some (TagVal.str q)
  else if "span.kind" = k then some (TagVal.str "client")
  else if "db.type" = k then some (TagVal.str "sql")
  else none

/-- Final value of the standard tags the connection core writes before the
static tags, looked up by key. -/
def connBaseTagLookup (k : String) : Option TagVal :=
  if "span.kind" = k then some (TagVal.str "client")
  else if "db.type" = k then some (TagVal.str "sql")
  else none

/-- Final tag values of a successful cursor traced execution: the row count
wins for its key since it is written last; otherwise the last static tag
binding wins; otherwise the standard tags written first apply. -/
theorem cursorCore_ok_lastTagVal (tags : List (String × TagVal)) (op q : String)
    (v : α) (rc : Int) (k : String) :
    lastTagVal (cursorTracedExecutionCore tags op q (Except.ok v) rc).1 k =
      if "db.rows_produced" = k then some (TagVal.int rc)
      else
        match lastAssoc tags k with
        | some w => some w
        | none => cursorBaseTagLookup q k := by
  rw [cursorCore_ok_eq]
  by_cases hrows : "db.rows_produced" = k
  · subst hrows
    have htail : lastTagVal [TraceEvent.setTag "db.rows_produced" (TagVal.int rc),
        TraceEvent.finishSpan] "db.rows_produced" = some (TagVal.int rc) := by
      simp [lastTagVal]
    have hmid := lastTagVal_append_some (staticTagEvents tags) htail
    simp [lastTagVal, hmid]
  · have htail : lastTagVal [TraceEvent.setTag "db.rows_produced" (TagVal.int rc),
        TraceEvent.finishSpan] k = none := by
      simp [lastTagVal, hrows]
    have hmid : lastTagVal (staticTagEvents tags ++
        [TraceEvent.setTag "db.rows_produced" (TagVal.int rc),
         TraceEvent.finishSpan]) k = lastAssoc tags k := by
      rw [lastTagVal_append_none _ htail, lastTagVal_staticTagEvents]
    cases hassoc : lastAssoc tags k with
    | some w => simp [lastTagVal, hmid, hassoc, hrows]
    | none =>
      by_cases hds : "db.statement" = k
      · simp [lastTagVal, cursorBaseTagLookup, hmid, hassoc, hrows, hds]
      · by_cases hsk : "span.kind" = k
        · simp [lastTagVal, cursorBaseTagLookup, hmid, hassoc, hrows, hds, hsk]
        · by_cases hdt : "db.type" = k
          · simp [lastTagVal, cursorBaseTagLookup, hmid, hassoc, hrows, hds, hsk, hdt]
          · simp [lastTagVal, cursorBaseTagLookup, hmid, hassoc, hrows, hds, hsk, hdt]

/-- Final tag values of a failing cursor traced execution: the error tags
are written last and win for their keys; otherwise the last static tag
binding wins; otherwise the standard tags apply. No row count is written. -/
theorem cursorCore_err_lastTagVal (tags : List (String × TagVal)) (op q : String)
    (e : PyErr) (rc : Int) (k : String) :
    lastTagVal (cursorTracedExecutionCore (α := α) tags op q (Except.error e) rc).1 k =
      match lastTagVal (errorTagEvents e) k with
      | some w => some w
      | none =>
        match lastAssoc tags k with
        | some w => some w
        | none => cursorBaseTagLookup q k := by
  rw [cursorCore_err_eq]
  have hfin : lastTagVal [TraceEvent.finishSpan] k = none := rfl
  have htail : lastTagVal (errorTagEvents e ++ [TraceEvent.finishSpan]) k =
      lastTagVal (errorTagEvents e) k := lastTagVal_append_none _ hfin
  cases herr : lastTagVal (errorTagEvents e) k with
  | some w =>
    have hmid : lastTagVal (staticTagEvents tags ++
        (errorTagEvents e ++ [TraceEvent.finishSpan])) k = some w :=
      lastTagVal_append_some _ (htail.trans herr)
    simp [lastTagVal, hmid, herr]
  | none =>
    have hmid : lastTagVal (staticTagEvents tags ++
        (errorTagEvents e ++ [TraceEvent.finishSpan])) k = lastAssoc tags k := by
      rw [lastTagVal_append_none _ (htail.trans herr), lastTagVal_staticTagEvents]
    cases hassoc : lastAssoc tags k with
    | some w => simp [lastTagVal, hmid, hassoc, herr]
    | none =>
      by_cases hds : "db.statement" = k
      · simp [lastTagVal, cursorBaseTagLookup, hmid, hassoc, herr, hds]
      · by_cases hsk : "span.kind" = k
        · simp [lastTagVal, cursorBaseTagLookup, hmid, hassoc, herr, hds, hsk]
        · by_cases hdt : "db.type" = k
          · simp [lastTagVal, cursorBaseTagLookup, hmid, hassoc, herr, hds, hsk, hdt]
          · simp [lastTagVal, cursorBaseTagLookup, hmid, hassoc, herr, hds, hsk, hdt]

/-- Final tag values of a successful connection traced execution. -/
theorem connCore_ok_lastTagVal (tags : List (String × TagVal)) (op : String)
    (v : α) (k : String) :
    lastTagVal (connTracedExecution tags op (Except.ok v)).1 k =
      match lastAssoc tags k with
      | some w => some w
      | none => connBaseTagLookup k := by
  rw [connCore_ok_eq]
  have hfin : lastTagVal [TraceEvent.finishSpan] k = none := rfl
  have hmid : lastTagVal (staticTagEvents tags ++ [TraceEvent.finishSpan]) k =
      lastAssoc tags k := by
    rw [lastTagVal_append_none _ hfin, lastTagVal_staticTagEvents]
  cases hassoc : lastAssoc tags k with
  | some w => simp [lastTagVal, hmid, hassoc]
  | none =>
    by_cases hsk : "span.kind" = k
    · simp [lastTagVal, connBaseTagLookup, hmid, hassoc, hsk]
    · by_cases hdt : "db.type" = k
      · simp [lastTagVal, connBaseTagLookup, hmid, hassoc, hsk, hdt]
      · simp [lastTagVal, connBaseTagLookup, hmid, hassoc, hsk, hdt]

/-- Final tag values of a failing connection traced execution: the error
tags win for their keys, then the static tags, then the standard tags. -/
theorem connCore_err_lastTagVal (tags : List (String × TagVal)) (op : String)
    (e : PyErr) (k : String) :
    lastTagVal (connTracedExecution (α := α) tags op (Except.error e)).1 k =
      match lastTagVal (errorTagEvents e) k with
      | some w => some w
      | none =>
        match lastAssoc tags k with
        | some w => some w
        | none => connBaseTagLookup k := by
  rw [connCore_err_eq]
  have hfin : lastTagVal [TraceEvent.finishSpan] k = none := rfl
  have htail : lastTagVal (errorTagEvents e ++ [TraceEvent.finishSpan]) k =
      lastTagVal (errorTagEvents e) k := lastTagVal_append_none _ hfin
  cases herr : lastTagVal (errorTagEvents e) k with
  | some w =>
    have hmid : lastTagVal (staticTagEvents tags ++
        (errorTagEvents e ++ [TraceEvent.finishSpan])) k = some w :=
      lastTagVal_append_some _ (htail.trans herr)
    simp [lastTagVal, hmid, herr]
  | none =>
    have hmid : lastTagVal (staticTagEvents tags ++
        (errorTagEvents e ++ [TraceEvent.finishSpan])) k = lastAssoc tags k := by
      rw [lastTagVal_append_none _ (htail.trans herr), lastTagVal_staticTagEvents]
    cases hassoc : lastAssoc tags k with
    | some w => simp [lastTagVal, hmid, hassoc, herr]
    | none =>
      by_cases hsk : "span.kind" = k
      · simp [lastTagVal, connBaseTagLookup, hmid, hassoc, herr, hsk]
      · by_cases hdt : "db.type" = k
        · simp [lastTagVal, connBaseTagLookup, hmid, hassoc, herr, hsk, hdt]
        · simp [lastTagVal, connBaseTagLookup, hmid, hassoc, herr, hsk, hdt]

/-- Final value of the error flag among the error tag events. -/
theorem errorTagEvents_lastTag_error (e : PyErr) :
    lastTagVal (errorTagEvents e) "error" = some (TagVal.bool true) := by
  simp [errorTagEvents, lastTagVal]

/-- Final value of the error message among the error tag events. -/
theorem errorTagEvents_lastTag_message (e : PyErr) :
    lastTagVal (errorTagEvents e) "sfx.error.message" = some (TagVal.str e.msg) := by
  simp [errorTagEvents, lastTagVal]

/-- Final value of the error kind among the error tag events. -/
theorem errorTagEvents_lastTag_kind (e : PyErr) :
    lastTagVal (errorTagEvents e) "sfx.error.kind" = some (TagVal.str e.kind) := by
  simp [errorTagEvents, lastTagVal]

/-- The error tag events never write the row count key. -/
theorem errorTagEvents_lastTag_rows (e : PyErr) :
    lastTagVal (errorTagEvents e) "db.rows_produced" = none := by
  simp [errorTagEvents, lastTagVal]

/-- The error tag events never write the three standard pre-call keys. -/
theorem errorTagEvents_lastTag_std (e : PyErr) (k : String)
    (hk : k = "db.type" ∨ k = "span.kind" ∨ k = "db.statement") :
    lastTagVal (errorTagEvents e) k = none := by
  rcases hk with hk | hk | hk <;> subst hk <;> simp [errorTagEvents, lastTagVal]

/-- With its trace flag on, a cursor operation runs the shared traced
execution with the operation name built from the statement fragment. -/
theorem cursorRunOp_eq_traced (cfg : CursorCfg) (cn : String) (op : CursorOp)
    (stmt : PlainStmt) (call : Except PyErr α) (rc : Int)
    (h : cursorOpFlag cfg op = true) :
    cursorRunOp cfg cn op stmt call rc =
      cursorTracedExecutionCore cfg.spanTags
        (operationName cn (cursorOpFuncName op) (cursorGetStatement stmt))
        (cursorGetQuery stmt) call rc := by
  cases op <;>
    simp_all [cursorRunOp, cursorExecute, cursorExecutemany, cursorCallproc,
      cursorOpFlag, cursorOpFuncName, cursorTracedExecution]

/-- With its trace flag on, a psycopg cursor operation runs the shared
traced execution with the psycopg statement normalization. -/
theorem psycopgRunOp_eq_traced (cfg : CursorCfg) (cn : String) (op : CursorOp)
    (stmt : PgStmt) (call : Except PyErr α) (rc : Int)
    (h : cursorOpFlag cfg op = true) :
    psycopgRunOp cfg cn op stmt call rc =
      cursorTracedExecutionCore cfg.spanTags
        (operationName cn (cursorOpFuncName op) (psycopgGetStatement stmt))
        (psycopgGetQuery stmt) call rc := by
  cases op <;>
    simp_all [psycopgRunOp, psycopgExecute, psycopgExecutemany, psycopgCallproc,
      cursorOpFlag, cursorOpFuncName, psycopgTracedExecution]

/-- With its trace flag on, a connection transaction operation runs the
connection traced execution under its precomputed name. -/
theorem connRunOp_eq_traced (c : ConnCfg) (op : ConnOp) (call : Except PyErr α)
    (h : connOpFlag c op = true) :
    connRunOp c op call = connTracedExecution c.spanTags (connOpName c op) call := by
  cases op <;>
    simp_all [connRunOp, connCommit, connRollback, connOpFlag, connOpName]

/-- The commit and rollback operation names of one connection differ, their
lengths being different. -/
theorem commit_ne_rollback (c : ConnCfg) :
    commitOperationName c ≠ rollbackOperationName c := by
  intro h
  have hlen := congrArg String.length h
  have h6 : ("commit" : String).length = 6 := rfl
  have h8 : ("rollback" : String).length = 8 := rfl
  simp only [commitOperationName, rollbackOperationName, operationName,
    operationNameOf, String.length_append, h6, h8] at hlen
  omega

/-- One span start for any outcome of the connection core. -/
theorem connCore_spanStarts (tags : List (String × TagVal)) (op : String)
    (call : Except PyErr α) :
    spanStarts (connTracedExecution tags op call).1 = [op] := by
  cases call with
  | error e => exact connCore_err_spanStarts tags op e
  | ok v => exact connCore_ok_spanStarts tags op v

/-- One span start for any outcome of the cursor core. -/
theorem cursorCore_spanStarts (tags : List (String × TagVal)) (op q : String)
    (call : Except PyErr α) (rc : Int) :
    spanStarts (cursorTracedExecutionCore tags op q call rc).1 = [op] := by
  cases call with
  | error e => exact cursorCore_err_spanStarts tags op q e rc
  | ok v => exact cursorCore_ok_spanStarts tags op q v rc

/-- One finish for any outcome of the connection core. -/
theorem connCore_finishCount (tags : List (String × TagVal)) (op : String)
    (call : Except PyErr α) :
    finishCount (connTracedExecution tags op call).1 = 1 := by
  cases call with
  | error e => exact connCore_err_finishCount tags op e
  | ok v => exact connCore_ok_finishCount tags op v

/-- One finish for any outcome of the cursor core. -/
theorem cursorCore_finishCount (tags : List (String × TagVal)) (op q : String)
    (call : Except PyErr α) (rc : Int) :
    finishCount (cursorTracedExecutionCore tags op q call rc).1 = 1 := by
  cases call with
  | error e => exact cursorCore_err_finishCount tags op q e rc
  | ok v => exact cursorCore_ok_finishCount tags op q v rc

/-- The connection core always finishes the span last. -/
theorem connCore_getLast (tags : List (String × TagVal)) (op : String)
    (call : Except PyErr α) :
    (connTracedExecution tags op call).1.getLast? = some TraceEvent.finishSpan := by
  cases call with
  | error e => exact connCore_err_getLast tags op e
  | ok v => exact connCore_ok_getLast tags op v

/-- The cursor core always finishes the span last. -/
theorem cursorCore_getLast (tags : List (String × TagVal)) (op q : String)
    (call : Except PyErr α) (rc : Int) :
    (cursorTracedExecutionCore tags op q call rc).1.getLast? =
      some TraceEvent.finishSpan := by
  cases call with
  | error e => exact cursorCore_err_getLast tags op q e rc
  | ok v => exact cursorCore_ok_getLast tags op q v rc

/-- A statement without a space character survives the fragment split. -/
theorem pySplitSpaceHead_of_no_space (s : String)
    (h : ∀ ch ∈ s.data, ch ≠ spaceChar) : pySplitSpaceHead s = s := by
  have hdata : s.data.takeWhile (fun c => c != spaceChar) = s.data :=
    List.takeWhile_eq_self_iff.mpr (by
      intro x hx
      simpa using h x hx)
  cases s with
  | mk data => simpa [pySplitSpaceHead] using congrArg String.mk hdata

/-- The empty pair of factory registries with a fresh identity supply. -/
def emptyFactoryCaches : FactoryCaches :=
  { cursorClasses := [], connClasses := [], nextClassId := 0 }

/-- C1: requesting a combined traced subclass twice for the same underlying
class is NOT idempotent for PsycopgConnectionTracing: starting from empty
registries, two consecutive requests for the same connection factory (id 7)
instantiate two distinct combined classes (ids 0 and 1), because the
membership test consults the cursor registry while the store writes the
connection registry; the cursor path, whose test and store use the same
registry, returns the identical class (id 0) both times. -/
theorem c1_connection_cache_not_idempotent :
    (psycopgConnectionTracingNew emptyFactoryCaches 7).2 = some 0 ∧
    (psycopgConnectionTracingNew
      (psycopgConnectionTracingNew emptyFactoryCaches 7).1 7).2 = some 1 ∧
    (psycopgConnectionTracingNew emptyFactoryCaches 7).2 ≠
      (psycopgConnectionTracingNew
        (psycopgConnectionTracingNew emptyFactoryCaches 7).1 7).2 ∧
    (psycopgCursorTracingNew emptyFactoryCaches 7).2 = some 0 ∧
    (psycopgCursorTracingNew
      (psycopgCursorTracingNew emptyFactoryCaches 7).1 7).2 = some 0 := by
  decide

/-- C3 counterexample: the fragment is computed by splitting on the space
character only, and callproc input is split like any other statement: the
callproc procedure-name argument given as the text consisting of the words
my and proc separated by a space yields the fragment consisting of the word
my, not the full argument; and a statement whose first two tokens are
separated by a tab yields both tokens joined by the tab as its fragment, not
the first whitespace-delimited token. -/
theorem c3_counterexample :
    cursorGetStatement (PlainStmt.str "my proc") = "my" ∧
    ("my" : String) ≠ "my proc" ∧
    cursorGetStatement (PlainStmt.str "insert\tinto x") = "insert\tinto" ∧
    ("insert\tinto" : String) ≠ "insert" := by
  decide

/-- C3 amended: the fragment embedded in the operation name is the prefix of
the statement text before the first space character (byte input first
decoded UTF-8 lossily), applied uniformly to execute, executemany and
callproc; the name for the statement inserting into x under caller type T is
exactly T.execute(insert); a structured query object with zero parts yields
the empty fragment; and a callproc procedure-name argument equals its
fragment whenever it contains no space character. -/
theorem c3_amended (s : String) (h : ∀ ch ∈ s.data, ch ≠ spaceChar) :
    cursorGetStatement (PlainStmt.str "insert into x values (1)") = "insert" ∧
    operationName "T" "execute"
      (cursorGetStatement (PlainStmt.str "insert into x values (1)")) =
      "T.execute(insert)" ∧
    psycopgGetStatement (PgStmt.composed []) = "" ∧
    operationName "T" "execute" (psycopgGetStatement (PgStmt.composed [])) =
      "T.execute()" ∧
    cursorGetStatement (PlainStmt.bytes [105, 110, 115, 101, 114, 116, 32, 120]) =
      "insert" ∧
    cursorGetStatement (PlainStmt.str s) = s ∧
    psycopgGetStatement (PgStmt.str s) = s := by
  refine ⟨by decide, by decide, by decide, by decide, by decide, ?_, ?_⟩
  · simpa [cursorGetStatement] using pySplitSpaceHead_of_no_space s h
  · simpa [psycopgGetStatement] using pySplitSpaceHead_of_no_space s h

/-- C3 witness: the amended claim applied to a procedure name free of
spaces. -/
theorem c3_amended_witness :
    cursorGetStatement (PlainStmt.str "my_procedure") = "my_procedure" :=
  (c3_amended "my_procedure" (by decide)).2.2.2.2.2.1

/-- C4: when an exception is propagating out of the connection scope and the
underlying exit completes normally without suppressing (returning a falsy
value, as the consumed scoped-resource contract has it), the exit handler
decides for rollback, a rollback-named span when the rollback flag is on and
no span otherwise, the underlying exit return value is forwarded unchanged,
and the original exception continues to propagate to the caller. -/
theorem c4_exit_propagates (c : ConnCfg) (e : PyErr) :
    withBlockOutcome (some e) (connExit c (some e) (Except.ok false)).2 = some e ∧
    (connExit c (some e) (Except.ok false)).2 = Except.ok false ∧
    spanStarts (connExit c (some e) (Except.ok false)).1 =
      (if c.traceRollback then [rollbackOperationName c] else []) := by
  cases hflag : c.traceRollback with
  | false =>
    simp [connExit, hflag, withBlockOutcome, spanStarts]
  | true =>
    refine ⟨?_, ?_, ?_⟩
    · simp [connExit, hflag, connCore_snd, withBlockOutcome]
    · simp [connExit, hflag, connCore_snd]
    · simp [connExit, hflag, connCore_spanStarts]

/-- C7: with the relevant trace flag off, each of execute, executemany and
callproc (generic and psycopg variants) and each of commit and rollback
performs zero tracer interactions and returns or raises exactly what the
underlying driver call returns or raises. -/
theorem c7_flag_off_direct (cfg : CursorCfg) (c : ConnCfg) (cn : String)
    (op : CursorOp) (cop : ConnOp) (stmt : PlainStmt) (pstmt : PgStmt)
    (call : Except PyErr Nat) (rc : Int)
    (hcur : cursorOpFlag cfg op = false) (hconn : connOpFlag c cop = false) :
    cursorRunOp cfg cn op stmt call rc = ([], call) ∧
    psycopgRunOp cfg cn op pstmt call rc = ([], call) ∧
    connRunOp c cop call = ([], call) := by
  cases op <;> cases cop <;>
    simp_all [cursorRunOp, cursorExecute, cursorExecutemany, cursorCallproc,
      psycopgRunOp, psycopgExecute, psycopgExecutemany, psycopgCallproc,
      connRunOp, connCommit, connRollback, cursorOpFlag, connOpFlag]

/-- Cursor configuration with every trace flag off. -/
def offCursorCfg : CursorCfg :=
  { spanTags := [], traceExecute := false, traceExecutemany := false,
    traceCallproc := false }

/-- Connection configuration with every trace flag off. -/
def offConnCfg : ConnCfg :=
  { className := "connection", spanTags := [], traceCommit := false,
    traceRollback := false, traceExecute := false, traceExecutemany := false,
    traceCallproc := false }

/-- C7 witness: an execute call with tracing off emits no event and returns
the underlying value. -/
theorem c7_witness :
    cursorRunOp offCursorCfg "T" CursorOp.execute (PlainStmt.str "SELECT 1")
      (Except.ok (0 : Nat)) 3 = ([], Except.ok 0) :=
  (c7_flag_off_direct offCursorCfg offConnCfg "T" CursorOp.execute ConnOp.commit
    (PlainStmt.str "SELECT 1") (PgStmt.str "SELECT 1") (Except.ok 0) 3
    (by decide) (by decide)).1

/-- C8: entering a traced connection scope returns the cursor obtained from
calling cursor() with no overrides; exiting with a pending exception starts
exactly one rollback-named span when the rollback flag is on and none
otherwise, and never a commit-named span; exiting normally starts exactly
one commit-named span when the commit flag is on and none otherwise, and
never a rollback-named span. -/
theorem c8_scoped_connection (c : ConnCfg) (e : PyErr) (u : Except PyErr Bool) :
    connEnter c = connCursor c none none none ∧
    spanStarts (connExit c (some e) u).1 =
      (if c.traceRollback then [rollbackOperationName c] else []) ∧
    commitOperationName c ∉ spanStarts (connExit c (some e) u).1 ∧
    spanStarts (connExit c none u).1 =
      (if c.traceCommit then [commitOperationName c] else []) ∧
    rollbackOperationName c ∉ spanStarts (connExit c none u).1 := by
  refine ⟨rfl, ?_, ?_, ?_, ?_⟩
  · cases hflag : c.traceRollback <;>
      simp [connExit, hflag, connCore_spanStarts, spanStarts_nil]
  · cases hflag : c.traceRollback <;>
      simp [connExit, hflag, connCore_spanStarts, spanStarts_nil,
        commit_ne_rollback c]
  · cases hflag : c.traceCommit <;>
      simp [connExit, hflag, connCore_spanStarts, spanStarts_nil]
  · cases hflag : c.traceCommit <;>
      simp [connExit, hflag, connCore_spanStarts, spanStarts_nil,
        (commit_ne_rollback c).symm]

/-- Appending distributes over the key-presence test. -/
theorem hasTagKey_append (a b : List TraceEvent) (k : String) :
    hasTagKey (a ++ b) k = (hasTagKey a k || hasTagKey b k) := by
  simp [hasTagKey]

/-- A span start writes no key. -/
theorem hasTagKey_cons_start (n : String) (l : List TraceEvent) (k : String) :
    hasTagKey (TraceEvent.startSpan n :: l) k = hasTagKey l k := by
  simp [hasTagKey]

/-- A span finish writes no key. -/
theorem hasTagKey_cons_finish (l : List TraceEvent) (k : String) :
    hasTagKey (TraceEvent.finishSpan :: l) k = hasTagKey l k := by
  simp [hasTagKey]

/-- A write under a different key leaves the key-presence test unchanged. -/
theorem hasTagKey_cons_setTag_ne {k2 k : String} (h : k2 ≠ k) (v : TagVal)
    (l : List TraceEvent) :
    hasTagKey (TraceEvent.setTag k2 v :: l) k = hasTagKey l k := by
  simp [hasTagKey, h]

/-- The empty event list writes no key. -/
theorem hasTagKey_nil (k : String) : hasTagKey [] k = false := rfl

/-- The error tag events never write a row-count or statement key. -/
theorem hasTagKey_errorTagEvents (e : PyErr) (k : String)
    (hk : k = "db.rows_produced" ∨ k = "db.statement") :
    hasTagKey (errorTagEvents e) k = false := by
  rcases hk with h | h <;> subst h <;> simp [hasTagKey, errorTagEvents]

/-- The connection traced execution writes neither a row-count nor a
statement tag, provided the static tags avoid those keys. -/
theorem connCore_no_key (tags : List (String × TagVal)) (op : String)
    (call : Except PyErr α) (k : String)
    (hk : k = "db.rows_produced" ∨ k = "db.statement")
    (hstat : ∀ kv ∈ tags, kv.1 ≠ k) :
    hasTagKey (connTracedExecution tags op call).1 k = false := by
  have h1 : ("db.type" : String) ≠ k := by rcases hk with h | h <;> subst h <;> decide
  have h2 : ("span.kind" : String) ≠ k := by rcases hk with h | h <;> subst h <;> decide
  have hstatic := hasTagKey_staticTagEvents tags k hstat
  cases call with
  | error e =>
    rw [connCore_err_eq]
    simp [hasTagKey_cons_start, hasTagKey_cons_setTag_ne h1, hasTagKey_cons_setTag_ne h2,
      hasTagKey_append, hstatic, hasTagKey_errorTagEvents e k hk, hasTagKey_cons_finish,
      hasTagKey_nil]
  | ok v =>
    rw [connCore_ok_eq]
    simp [hasTagKey_cons_start, hasTagKey_cons_setTag_ne h1, hasTagKey_cons_setTag_ne h2,
      hasTagKey_append, hstatic, hasTagKey_cons_finish, hasTagKey_nil]

/-- The database-type tag write is among the connection core events. -/
theorem connCore_mem_dbtype (tags : List (String × TagVal)) (op : String)
    (call : Except PyErr α) :
    TraceEvent.setTag "db.type" (TagVal.str "sql") ∈ (connTracedExecution tags op call).1 := by
  cases call with
  | error e => rw [connCore_err_eq]; simp
  | ok v => rw [connCore_ok_eq]; simp

/-- On the failure path, every error tag event is among the events of the
connection core span. -/
theorem connCore_mem_errorTags (tags : List (String × TagVal)) (op : String)
    (e : PyErr) :
    ∀ ev ∈ errorTagEvents e,
      ev ∈ (connTracedExecution (α := α) tags op (Except.error e)).1 := by
  intro ev hev
  rw [connCore_err_eq]
  simp [hev]

/-- Every static pair is written by the connection core. -/
theorem connCore_mem_static (tags : List (String × TagVal)) (op : String)
    (call : Except PyErr α) {k : String} {v : TagVal} (hkv : (k, v) ∈ tags) :
    TraceEvent.setTag k v ∈ (connTracedExecution tags op call).1 := by
  have hm := setTag_mem_staticTagEvents hkv
  cases call with
  | error e => rw [connCore_err_eq]; simp [hm]
  | ok w => rw [connCore_ok_eq]; simp [hm]

/-- Every static pair is written by the cursor core. -/
theorem cursorCore_mem_static (tags : List (String × TagVal)) (op q : String)
    (call : Except PyErr α) (rc : Int) {k : String} {v : TagVal} (hkv : (k, v) ∈ tags) :
    TraceEvent.setTag k v ∈ (cursorTracedExecutionCore tags op q call rc).1 := by
  have hm := setTag_mem_staticTagEvents hkv
  cases call with
  | error e => rw [cursorCore_err_eq]; simp [hm]
  | ok w => rw [cursorCore_ok_eq]; simp [hm]

/-- A static tag under one of the three standard pre-call keys wins the
final value in the cursor core, on both outcomes. -/
theorem cursorCore_lastTag_static_override (tags : List (String × TagVal)) (op q : String)
    (call : Except PyErr α) (rc : Int) (k : String) (v : TagVal)
    (hk : k = "db.type" ∨ k = "span.kind" ∨ k = "db.statement")
    (hnd : (tags.map Prod.fst).Nodup) (hmem : (k, v) ∈ tags) :
    lastTagVal (cursorTracedExecutionCore tags op q call rc).1 k = some v := by
  have hassoc := lastAssoc_of_mem_nodup tags k v hnd hmem
  cases call with
  | ok w =>
    rw [cursorCore_ok_lastTagVal]
    have hrows : ¬("db.rows_produced" = k) := by
      rcases hk with h | h | h <;> subst h <;> decide
    simp [hrows, hassoc]
  | error e =>
    rw [cursorCore_err_lastTagVal]
    simp [errorTagEvents_lastTag_std e k hk, hassoc]

/-- A static tag under one of the standard keys wins the final value in the
connection core, on both outcomes. -/
theorem connCore_lastTag_static_override (tags : List (String × TagVal)) (op : String)
    (call : Except PyErr α) (k : String) (v : TagVal)
    (hk : k = "db.type" ∨ k = "span.kind" ∨ k = "db.statement")
    (hnd : (tags.map Prod.fst).Nodup) (hmem : (k, v) ∈ tags) :
    lastTagVal (connTracedExecution tags op call).1 k = some v := by
  have hassoc := lastAssoc_of_mem_nodup tags k v hnd hmem
  cases call with
  | ok w =>
    rw [connCore_ok_lastTagVal]
    simp [hassoc]
  | error e =>
    rw [connCore_err_lastTagVal]
    simp [errorTagEvents_lastTag_std e k hk, hassoc]

/-- A fixed concrete exception used by concrete evaluations. -/
def errW : PyErr :=
  { cls := "SomeClass", kind := "SomeException", msg := "message", stack := "trace" }

/-- Connection configuration with every trace flag on and no static tags. -/
def onConnCfg : ConnCfg :=
  { className := "connection", spanTags := [], traceCommit := true,
    traceRollback := true, traceExecute := true, traceExecutemany := true,
    traceCallproc := true }

/-- Cursor configuration with every trace flag on and no static tags. -/
def onCursorCfg : CursorCfg :=
  { spanTags := [], traceExecute := true, traceExecutemany := true,
    traceCallproc := true }

/-- C2 counterexample: the body of a traced commit IS wrapped in an error
handler that sets error tags on the span: a commit whose underlying call
raises leaves the span with the error flag set and the error message tag
set, refuting the claim that no try/except sets error tags there. -/
theorem c2_counterexample :
    lastTagVal (connCommit onConnCfg (Except.error errW : Except PyErr Nat)).1
      "error" = some (TagVal.bool true) ∧
    lastTagVal (connCommit onConnCfg (Except.error errW : Except PyErr Nat)).1
      "sfx.error.message" = some (TagVal.str "message") := by
  decide

/-- C2 amended: every traced commit and rollback call tags its span with
database-type and the static tags but never with a row-count or statement
tag (the static mapping avoiding those keys); any error raised by the
underlying call propagates after the span is finished, the call being
wrapped in an error handler that sets the error tags on the span before the
identical exception is re-raised. Concretely: the underlying result is
returned unchanged, exactly one span is started under the precomputed name
and finished as the last tracer interaction, and on the failure path every
error tag event is set on the span. -/
theorem c2_amended (c : ConnCfg) (op : ConnOp) (call : Except PyErr Nat) (e : PyErr)
    (hflag : connOpFlag c op = true)
    (hkeys : ∀ kv ∈ c.spanTags, kv.1 ≠ "db.rows_produced" ∧ kv.1 ≠ "db.statement") :
    (connRunOp c op call).2 = call ∧
    spanStarts (connRunOp c op call).1 = [connOpName c op] ∧
    hasTagKey (connRunOp c op call).1 "db.rows_produced" = false ∧
    hasTagKey (connRunOp c op call).1 "db.statement" = false ∧
    TraceEvent.setTag "db.type" (TagVal.str "sql") ∈ (connRunOp c op call).1 ∧
    (∀ kv ∈ c.spanTags, TraceEvent.setTag kv.1 kv.2 ∈ (connRunOp c op call).1) ∧
    finishCount (connRunOp c op call).1 = 1 ∧
    (connRunOp c op call).1.getLast? = some TraceEvent.finishSpan ∧
    (connRunOp c op (Except.error e : Except PyErr Nat)).2 = Except.error e ∧
    (∀ ev ∈ errorTagEvents e,
      ev ∈ (connRunOp c op (Except.error e : Except PyErr Nat)).1) ∧
    lastTagVal (connRunOp c op (Except.error e : Except PyErr Nat)).1 "error" =
      some (TagVal.bool true) := by
  rw [connRunOp_eq_traced c op call hflag,
    connRunOp_eq_traced c op (Except.error e : Except PyErr Nat) hflag]
  refine ⟨connCore_snd _ _ _, connCore_spanStarts _ _ _, ?_, ?_, connCore_mem_dbtype _ _ _,
    ?_, connCore_finishCount _ _ _, connCore_getLast _ _ _, connCore_snd _ _ _,
    connCore_mem_errorTags _ _ _, ?_⟩
  · exact connCore_no_key _ _ _ _ (Or.inl rfl) (fun kv hkv => (hkeys kv hkv).1)
  · exact connCore_no_key _ _ _ _ (Or.inr rfl) (fun kv hkv => (hkeys kv hkv).2)
  · intro kv hkv
    exact connCore_mem_static _ _ _ (by simpa using hkv)
  · rw [connCore_err_lastTagVal]
    simp [errorTagEvents_lastTag_error]

/-- C2 witness: a successful traced commit with no static tags returns the
underlying value. -/
theorem c2_amended_witness :
    (connRunOp onConnCfg ConnOp.commit (Except.ok (0 : Nat))).2 = Except.ok 0 :=
  (c2_amended onConnCfg ConnOp.commit (Except.ok 0) errW (by decide) (by simp [onConnCfg])).1

/-- C5: a failing traced execute, executemany or callproc call starts
exactly one span named from the statement fragment, finishes it as the last
tracer interaction before control returns, tags it with the error flag,
message and kind, leaves the row-count key unwritten (the static mapping
avoiding that key), and re-raises the identical exception object. -/
theorem c5_failing_execution (cfg : CursorCfg) (cn : String) (op : CursorOp)
    (stmt : PlainStmt) (e : PyErr) (rc : Int)
    (hflag : cursorOpFlag cfg op = true)
    (hrows : ∀ kv ∈ cfg.spanTags, kv.1 ≠ "db.rows_produced") :
    (cursorRunOp (α := α) cfg cn op stmt (Except.error e) rc).2 = Except.error e ∧
    spanStarts (cursorRunOp (α := α) cfg cn op stmt (Except.error e) rc).1 =
      [operationName cn (cursorOpFuncName op) (cursorGetStatement stmt)] ∧
    finishCount (cursorRunOp (α := α) cfg cn op stmt (Except.error e) rc).1 = 1 ∧
    (cursorRunOp (α := α) cfg cn op stmt (Except.error e) rc).1.getLast? =
      some TraceEvent.finishSpan ∧
    lastTagVal (cursorRunOp (α := α) cfg cn op stmt (Except.error e) rc).1 "error" =
      some (TagVal.bool true) ∧
    lastTagVal (cursorRunOp (α := α) cfg cn op stmt (Except.error e) rc).1
      "sfx.error.message" = some (TagVal.str e.msg) ∧
    lastTagVal (cursorRunOp (α := α) cfg cn op stmt (Except.error e) rc).1
      "sfx.error.kind" = some (TagVal.str e.kind) ∧
    lastTagVal (cursorRunOp (α := α) cfg cn op stmt (Except.error e) rc).1
      "db.rows_produced" = none := by
  rw [cursorRunOp_eq_traced cfg cn op stmt (Except.error e) rc hflag]
  refine ⟨cursorCore_snd _ _ _ _ _, cursorCore_err_spanStarts _ _ _ _ _,
    cursorCore_err_finishCount _ _ _ _ _, cursorCore_err_getLast _ _ _ _ _, ?_, ?_, ?_, ?_⟩
  · rw [cursorCore_err_lastTagVal]
    simp [errorTagEvents_lastTag_error]
  · rw [cursorCore_err_lastTagVal]
    simp [errorTagEvents_lastTag_message]
  · rw [cursorCore_err_lastTagVal]
    simp [errorTagEvents_lastTag_kind]
  · rw [cursorCore_err_lastTagVal]
    simp [errorTagEvents_lastTag_rows, lastAssoc_of_not_mem _ _ hrows,
      cursorBaseTagLookup]

/-- C5 witness: the failing execute re-raises the identical exception. -/
theorem c5_witness :
    (cursorRunOp onCursorCfg "T" CursorOp.execute (PlainStmt.str "SELECT 1")
      (Except.error errW : Except PyErr Nat) 0).2 = Except.error errW :=
  (c5_failing_execution onCursorCfg "T" CursorOp.execute (PlainStmt.str "SELECT 1")
    errW 0 (by decide) (by simp [onCursorCfg])).1

/-- C6: a successful traced execute, executemany or callproc call returns
the underlying value, starts exactly one span named from the statement
fragment, finishes it last, and leaves as final tag values db.type sql,
span.kind client, db.statement the normalized full statement, and
db.rows_produced the post-call rowcount, with no error tag present, the
static mapping avoiding the standard keys. -/
theorem c6_successful_execution (cfg : CursorCfg) (cn : String) (op : CursorOp)
    (stmt : PlainStmt) (v : α) (rc : Int)
    (hflag : cursorOpFlag cfg op = true)
    (hfresh : ∀ kv ∈ cfg.spanTags, kv.1 ≠ "db.type" ∧ kv.1 ≠ "span.kind" ∧
      kv.1 ≠ "db.statement" ∧ kv.1 ≠ "db.rows_produced" ∧ kv.1 ≠ "error") :
    (cursorRunOp cfg cn op stmt (Except.ok v) rc).2 = Except.ok v ∧
    spanStarts (cursorRunOp cfg cn op stmt (Except.ok v) rc).1 =
      [operationName cn (cursorOpFuncName op) (cursorGetStatement stmt)] ∧
    finishCount (cursorRunOp cfg cn op stmt (Except.ok v) rc).1 = 1 ∧
    (cursorRunOp cfg cn op stmt (Except.ok v) rc).1.getLast? =
      some TraceEvent.finishSpan ∧
    lastTagVal (cursorRunOp cfg cn op stmt (Except.ok v) rc).1 "db.type" =
      some (TagVal.str "sql") ∧
    lastTagVal (cursorRunOp cfg cn op stmt (Except.ok v) rc).1 "span.kind" =
      some (TagVal.str "client") ∧
    lastTagVal (cursorRunOp cfg cn op stmt (Except.ok v) rc).1 "db.statement" =
      some (TagVal.str (cursorGetQuery stmt)) ∧
    lastTagVal (cursorRunOp cfg cn op stmt (Except.ok v) rc).1 "db.rows_produced" =
      some (TagVal.int rc) ∧
    lastTagVal (cursorRunOp cfg cn op stmt (Except.ok v) rc).1 "error" = none := by
  rw [cursorRunOp_eq_traced cfg cn op stmt (Except.ok v) rc hflag]
  have hA1 : lastAssoc cfg.spanTags "db.type" = none :=
    lastAssoc_of_not_mem _ _ (fun kv h => (hfresh kv h).1)
  have hA2 : lastAssoc cfg.spanTags "span.kind" = none :=
    lastAssoc_of_not_mem _ _ (fun kv h => (hfresh kv h).2.1)
  have hA3 : lastAssoc cfg.spanTags "db.statement" = none :=
    lastAssoc_of_not_mem _ _ (fun kv h => (hfresh kv h).2.2.1)
  have hA5 : lastAssoc cfg.spanTags "error" = none :=
    lastAssoc_of_not_mem _ _ (fun kv h => (hfresh kv h).2.2.2.2)
  refine ⟨cursorCore_snd _ _ _ _ _, cursorCore_ok_spanStarts _ _ _ _ _,
    cursorCore_ok_finishCount _ _ _ _ _, cursorCore_ok_getLast _ _ _ _ _,
    ?_, ?_, ?_, ?_, ?_⟩
  · rw [cursorCore_ok_lastTagVal]
    simp [hA1, cursorBaseTagLookup]
  · rw [cursorCore_ok_lastTagVal]
    simp [hA2, cursorBaseTagLookup]
  · rw [cursorCore_ok_lastTagVal]
    simp [hA3, cursorBaseTagLookup]
  · rw [cursorCore_ok_lastTagVal]
    simp
  · rw [cursorCore_ok_lastTagVal]
    simp [hA5, cursorBaseTagLookup]

/-- C6 witness: a successful traced execute with no static tags returns the
underlying value. -/
theorem c6_witness :
    (cursorRunOp onCursorCfg "T" CursorOp.execute (PlainStmt.str "insert into t")
      (Except.ok (0 : Nat)) 1).2 = Except.ok 0 :=
  (c6_successful_execution onCursorCfg "T" CursorOp.execute
    (PlainStmt.str "insert into t") 0 1 (by decide) (by simp [onCursorCfg])).1

/-- Cursor configuration carrying one custom static tag. -/
def customTagCursorCfg : CursorCfg :=
  { spanTags := [("custom", TagVal.str "tag")], traceExecute := true,
    traceExecutemany := true, traceCallproc := true }

/-- Connection configuration carrying one custom static tag. -/
def customTagConnCfg : ConnCfg :=
  { className := "connection", spanTags := [("custom", TagVal.str "tag")],
    traceCommit := true, traceRollback := true, traceExecute := true,
    traceExecutemany := true, traceCallproc := true }

/-- C9: every pair of the configured static span-tag mapping is set on the
span of every traced operation: the generic and psycopg execute family, the
transaction operations, and the scoped exit on both of its branches. -/
theorem c9_static_tag_propagation (cfg : CursorCfg) (c : ConnCfg) (cn : String)
    (op : CursorOp) (cop : ConnOp) (stmt : PlainStmt) (pstmt : PgStmt)
    (call : Except PyErr Nat) (u : Except PyErr Bool) (exc : Option PyErr)
    (rc : Int) (k : String) (v : TagVal)
    (hkvCur : (k, v) ∈ cfg.spanTags) (hkvConn : (k, v) ∈ c.spanTags)
    (hcur : cursorOpFlag cfg op = true) (hconn : connOpFlag c cop = true)
    (hcm : c.traceCommit = true) (hrb : c.traceRollback = true) :
    TraceEvent.setTag k v ∈ (cursorRunOp cfg cn op stmt call rc).1 ∧
    TraceEvent.setTag k v ∈ (psycopgRunOp cfg cn op pstmt call rc).1 ∧
    TraceEvent.setTag k v ∈ (connRunOp c cop call).1 ∧
    TraceEvent.setTag k v ∈ (connExit c exc u).1 := by
  refine ⟨?_, ?_, ?_, ?_⟩
  · rw [cursorRunOp_eq_traced cfg cn op stmt call rc hcur]
    exact cursorCore_mem_static _ _ _ _ _ hkvCur
  · rw [psycopgRunOp_eq_traced cfg cn op pstmt call rc hcur]
    exact cursorCore_mem_static _ _ _ _ _ hkvCur
  · rw [connRunOp_eq_traced c cop call hconn]
    exact connCore_mem_static _ _ _ hkvConn
  · cases exc with
    | some e2 =>
      rw [show connExit c (some e2) u =
          connTracedExecution c.spanTags (rollbackOperationName c) u by
        simp [connExit, hrb]]
      exact connCore_mem_static _ _ _ hkvConn
    | none =>
      rw [show connExit c none u =
          connTracedExecution c.spanTags (commitOperationName c) u by
        simp [connExit, hcm]]
      exact connCore_mem_static _ _ _ hkvConn

/-- C9 witness: a configured custom tag is set on the execute span. -/
theorem c9_witness :
    TraceEvent.setTag "custom" (TagVal.str "tag") ∈
      (cursorRunOp customTagCursorCfg "T" CursorOp.execute (PlainStmt.str "x")
        (Except.ok (0 : Nat)) 0).1 :=
  (c9_static_tag_propagation customTagCursorCfg customTagConnCfg "T"
    CursorOp.execute ConnOp.commit (PlainStmt.str "x") (PgStmt.str "x")
    (Except.ok 0) (Except.ok false) none 0 "custom" (TagVal.str "tag")
    (by decide) (by decide) (by decide) (by decide) (by decide) (by decide)).1

/-- Cursor configuration whose static tag collides with a standard key. -/
def overrideCursorCfg : CursorCfg :=
  { spanTags := [("db.type", TagVal.str "nosql")], traceExecute := true,
    traceExecutemany := true, traceCallproc := true }

/-- Connection configuration whose static tag collides with a standard key. -/
def overrideConnCfg : ConnCfg :=
  { className := "connection", spanTags := [("db.type", TagVal.str "nosql")],
    traceCommit := true, traceRollback := true, traceExecute := true,
    traceExecutemany := true, traceCallproc := true }

/-- C10: the static tags are applied strictly after the standard tags
db.type, span.kind and db.statement, so a static tag under one of those
keys determines the final value the span carries for that key, on every
traced cursor call (both variants, both outcomes) and every traced
transaction call. -/
theorem c10_static_tags_after_standard (cfg : CursorCfg) (c : ConnCfg) (cn : String)
    (op : CursorOp) (cop : ConnOp) (stmt : PlainStmt) (pstmt : PgStmt)
    (call : Except PyErr Nat) (rc : Int) (k : String) (v : TagVal)
    (hk : k = "db.type" ∨ k = "span.kind" ∨ k = "db.statement")
    (hndCur : (cfg.spanTags.map Prod.fst).Nodup) (hmemCur : (k, v) ∈ cfg.spanTags)
    (hndConn : (c.spanTags.map Prod.fst).Nodup) (hmemConn : (k, v) ∈ c.spanTags)
    (hcur : cursorOpFlag cfg op = true) (hconn : connOpFlag c cop = true) :
    lastTagVal (cursorRunOp cfg cn op stmt call rc).1 k = some v ∧
    lastTagVal (psycopgRunOp cfg cn op pstmt call rc).1 k = some v ∧
    lastTagVal (connRunOp c cop call).1 k = some v := by
  refine ⟨?_, ?_, ?_⟩
  · rw [cursorRunOp_eq_traced cfg cn op stmt call rc hcur]
    exact cursorCore_lastTag_static_override _ _ _ _ _ k v hk hndCur hmemCur
  · rw [psycopgRunOp_eq_traced cfg cn op pstmt call rc hcur]
    exact cursorCore_lastTag_static_override _ _ _ _ _ k v hk hndCur hmemCur
  · rw [connRunOp_eq_traced c cop call hconn]
    exact connCore_lastTag_static_override _ _ _ k v hk hndConn hmemConn

/-- C10 witness: a static db.type tag overrides the standard sql value. -/
theorem c10_witness :
    lastTagVal (cursorRunOp overrideCursorCfg "T" CursorOp.execute
      (PlainStmt.str "x") (Except.ok (0 : Nat)) 0).1 "db.type" =
      some (TagVal.str "nosql") :=
  (c10_static_tags_after_standard overrideCursorCfg overrideConnCfg "T"
    CursorOp.execute ConnOp.commit (PlainStmt.str "x") (PgStmt.str "x")
    (Except.ok 0) 0 "db.type" (TagVal.str "nosql") (Or.inl rfl)
    (by decide) (by decide) (by decide) (by decide) (by decide) (by decide)).1
